import Mathlib

/-!
Verification of the connection-management layer of picoquic-rs
(src/ffi/connection.rs) against its specification.

The code is shallowly embedded: machine integers (u64) are modelled as
Nat with explicit reduction modulo 2 ^ 64 where overflow matters, the
opaque engine is modelled as explicit records of query results, and
fallible operations return Except / Option values.
-/

namespace Picoquic

/-- Stream directionality. Mirrors the two-variant enum of the stream
module (stream::Type) used by `generate_stream_id`; only the variant
names are visible from src/ffi/connection.rs. -/
inductive StreamType
  | Bidirectional
  | Unidirectional
deriving DecidableEq, Repr

/-- Embedding of Connection::generate_stream_id (connection.rs lines
144-166).  u64 arithmetic is modelled on Nat modulo 2 ^ 64: the
increment wraps, and the left shift by two discards the top two bits
exactly as the Rust u64 shift does.  The two bitwise-or statements of
the source set bit 0 for the server and bit 1 for unidirectional. -/
def generate_stream_id (next_id : Nat) (is_client : Bool) (stype : StreamType) : Nat :=
  let id := (next_id + 1) % 2 ^ 64
  let id := (id <<< 2) % 2 ^ 64
  let id := if !is_client then id ||| 1 else id
  let id :=
    match stype with
    | StreamType.Unidirectional => id ||| 2
    | StreamType.Bidirectional => id
  id

/-- Restatement of the spec algorithm (section 4.2), written from the
spec words for the refinement claim: reserve ids 0-3, compute
id = (nextCounter + 1) << 2 in u64, set bit 0 if the caller is the
server, set bit 1 if the stream is unidirectional. -/
def generateStreamId_spec (nextCounter : Nat) (isClient : Bool) (d : StreamType) : Nat :=
  let id := (((nextCounter + 1) % 2 ^ 64) <<< 2) % 2 ^ 64
  let id := if isClient = false then id ||| 1 else id
  if d = StreamType.Unidirectional then id ||| 2 else id

/-- The two low bits that `generate_stream_id` encodes the (role,
directionality) combination into. -/
def roleBits (is_client : Bool) (stype : StreamType) : Nat :=
  (if is_client then 0 else 1) + (if stype = StreamType.Unidirectional then 2 else 0)

/-- Closed error taxonomy surfaced by this layer.  The error module is
not under src/, so the two categories are modelled from the spec
(section 7): Unknown and TLSHandshakeError. -/
inductive ErrorKind
  | Unknown
  | TLSHandshakeError
deriving DecidableEq

/-- Modelled from the spec: the single recognized TLS-handshake-failure
code, PICOQUIC_TLS_HANDSHAKE_FAILED.  The constant lives in the external
picoquic-sys bindings, not under src/; 0x201 is the value defined by the
C library, and no claim depends on the exact value. -/
def PICOQUIC_TLS_HANDSHAKE_FAILED : Nat := 0x201

/-- Raw local and remote error codes of one connection as reported by
the engine queries picoquic_get_local_error and
picoquic_get_remote_error; 0 means no error. -/
structure ErrorCodes where
  local_error : Nat
  remote_error : Nat
deriving DecidableEq

/-- Embedding of the deferred classifier closure built inside
Connection::error (connection.rs lines 209-212): the recognized TLS
handshake failure code maps to TLSHandshakeError, every other code to
Unknown. -/
def classify_error (error_code : Nat) : ErrorKind :=
  if error_code = PICOQUIC_TLS_HANDSHAKE_FAILED then ErrorKind.TLSHandshakeError
  else ErrorKind.Unknown

/-- Embedding of Connection::error (connection.rs lines 196-214): take
the local code if it is non-zero and the remote code otherwise; return
none when the resulting code is zero, otherwise a deferred zero-argument
classifier closure over that code. -/
def Connection.error (e : ErrorCodes) : Option (Unit → ErrorKind) :=
  let error_code := if e.local_error ≠ 0 then e.local_error else e.remote_error
  if error_code = 0 then none
  else some (fun _ => classify_error error_code)

/-- IP addresses for the unspecified-address check: a v4 address carries
four octets, a v6 address eight 16-bit segments. -/
inductive IpAddr
  | v4 (a b c d : Nat)
  | v6 (s1 s2 s3 s4 s5 s6 s7 s8 : Nat)
deriving DecidableEq

/-- Modelled from the Rust standard library (outside src/):
is_unspecified is true exactly for the all-zero address of either
form. -/
def IpAddr.is_unspecified : IpAddr → Bool
  | IpAddr.v4 a b c d => a == 0 && b == 0 && c == 0 && d == 0
  | IpAddr.v6 s1 s2 s3 s4 s5 s6 s7 s8 =>
      s1 == 0 && s2 == 0 && s3 == 0 && s4 == 0 &&
        s5 == 0 && s6 == 0 && s7 == 0 && s8 == 0

/-- Socket addresses: an IP address together with a port. -/
structure SocketAddr where
  ip : IpAddr
  port : Nat
deriving DecidableEq

/-- A connection handle: the core stores the raw engine connection
object (a C pointer, modelled as a Nat value). -/
structure Connection where
  cnx : Nat
deriving DecidableEq

/-- Modelled from the spec (section 6): the engine operation that
creates a client connection takes the engine context, a destination
address and the current time and returns an opaque connection object or
null (none).  QuicCtx and picoquic_create_client_cnx live outside
src/, so the context is modelled as that single query. -/
structure QuicCtx where
  create_client_cnx : SocketAddr → Nat → Option Nat

/-- Possible outcomes of Connection::new: the assertion failure (the
panicked case, carrying no value; the source message reads: server
address must not be unspecified!), a recoverable error, or a handle. -/
inductive NewResult
  | panicked
  | err (e : ErrorKind)
  | ok (c : Connection)
deriving DecidableEq

/-- Embedding of Connection::new (connection.rs lines 31-61): assert
that the server address is not unspecified (else the assertion fails),
ask the engine for a new client connection, return an Unknown error if
the engine returned null, and a handle wrapping the returned object
otherwise. -/
def Connection.new (quic : QuicCtx) (server_addr : SocketAddr) (current_time : Nat) : NewResult :=
  if server_addr.ip.is_unspecified then NewResult.panicked
  else
    match quic.create_client_cnx server_addr current_time with
    | none => NewResult.err ErrorKind.Unknown
    | some cnx => NewResult.ok { cnx := cnx }

/-- Modelled from the spec (section 4.3): the behavior of the packet
module during one create-and-prepare call.  Packet::create over the
caller buffer may fail; prepare asks the engine to fill the buffer and
either fails or returns the written size; contains_data reports whether
the buffer holds payload after preparation.  The packet module is not
under src/. -/
structure PacketOps where
  create : Except ErrorKind Unit
  prepare : Except ErrorKind Nat
  contains_data : Bool

/-- Embedding of Connection::create_and_prepare_packet (connection.rs
lines 97-110): create the packet, prepare it, then return some size if
the packet contains data and none otherwise; either fallible step
propagates its error via the question-mark operator. -/
def create_and_prepare_packet (ops : PacketOps) : Except ErrorKind (Option Nat) :=
  match ops.create with
  | Except.error e => Except.error e
  | Except.ok _ =>
    match ops.prepare with
    | Except.error e => Except.error e
    | Except.ok size =>
      if ops.contains_data then Except.ok (some size) else Except.ok none

/-- Modelled from the spec: the numeric code of the client ready state in
the engine state enumeration (picoquic_state_enum, defined in the
external bindings).  The three codes used by this layer are distinct
members of that enumeration; their concrete values are otherwise
irrelevant. -/
def picoquic_state_client_ready : Nat := 13

/-- Modelled from the spec: the numeric code of the server ready state of
the engine state enumeration. -/
def picoquic_state_server_ready : Nat := 14

/-- Modelled from the spec: the numeric code of the terminal disconnected
state of the engine state enumeration. -/
def picoquic_state_disconnected : Nat := 16

/-- Embedding of Connection::is_ready (connection.rs lines 124-128) as a
predicate on the sampled state code returned by
picoquic_get_cnx_state. -/
def Connection.is_ready (state : Nat) : Bool :=
  state == picoquic_state_client_ready || state == picoquic_state_server_ready

/-- Embedding of Connection::is_disconnected (connection.rs lines
119-121) as a predicate on the sampled state code. -/
def Connection.is_disconnected (state : Nat) : Bool :=
  state == picoquic_state_disconnected

/-- The engine-internal list of live connection pointers in walk order,
as observable through picoquic_get_first_cnx and picoquic_get_next_cnx;
the walk is null-terminated after the last element. -/
structure QuicEngineList where
  chain : List Nat

/-- The element following the first occurrence of p in a list, if
any. -/
def nextInChain : List Nat → Nat → Option Nat
  | [], _ => none
  | x :: xs, p => if x = p then xs.head? else nextInChain xs p

/-- Engine query returning the first connection pointer, or null
(none). -/
def picoquic_get_first_cnx (e : QuicEngineList) : Option Nat :=
  e.chain.head?

/-- Engine query returning the pointer that follows p in the chain, or
null when p is the last element or absent. -/
def picoquic_get_next_cnx (e : QuicEngineList) (p : Nat) : Option Nat :=
  nextInChain e.chain p

/-- The while loop of ConnectionIter::new (connection.rs lines 233-242)
with explicit fuel bounding the number of iterations (the Rust loop is
unbounded; the fuel models its potential divergence): push the current
pointer and step to the next one until null. -/
def connectionWalk (e : QuicEngineList) : Nat → Option Nat → List Nat
  | _, none => []
  | 0, some _ => []
  | fuel + 1, some p => p :: connectionWalk e fuel (picoquic_get_next_cnx e p)

/-- Embedding of ConnectionIter::new (connection.rs lines 228-247)
composed with its Iterator instance (lines 250-256): materialize the
walk into an owned vector once, then yield each captured pointer wrapped
as a Connection, never touching the engine structure again. -/
def ConnectionIter.new (e : QuicEngineList) (fuel : Nat) : List Connection :=
  (connectionWalk e fuel (picoquic_get_first_cnx e)).map (fun p => { cnx := p })

/-- The arguments of one invocation of the engine operation
picoquic_close: the connection object and the application error code. -/
structure CloseCall where
  cnx : Nat
  error_code : Nat
deriving DecidableEq

/-- Embedding of Connection::close (connection.rs lines 134-139): the
engine close operation is invoked with application error code exactly 0;
the method signature takes no error-code parameter, so the interface
admits no other code. -/
def Connection.close (c : Connection) : CloseCall :=
  { cnx := c.cnx, error_code := 0 }

end Picoquic

namespace Picoquic

theorem roleBits_lt_four (c : Bool) (t : StreamType) : roleBits c t < 4 := by
  cases c <;> cases t <;> simp [roleBits]

theorem four_mul_lor (m b : Nat) (hb : b < 4) : (4 * m) ||| b = 4 * m + b := by
  apply Nat.eq_of_testBit_eq
  intro j
  rw [Nat.testBit_lor]
  have hm : (4 : Nat) * m = 2 ^ 2 * m + 0 := by ring
  have hmb : (4 : Nat) * m + b = 2 ^ 2 * m + b := by ring
  have hL : Nat.testBit (4 * m) j
      = if j < 2 then Nat.testBit 0 j else Nat.testBit m (j - 2) := by
    rw [hm]; exact Nat.testBit_mul_pow_two_add m (by norm_num) j
  have hR : Nat.testBit (4 * m + b) j
      = if j < 2 then Nat.testBit b j else Nat.testBit m (j - 2) := by
    rw [hmb]; exact Nat.testBit_mul_pow_two_add m (by simpa using hb) j
  rw [hL, hR]
  by_cases hj : j < 2
  · simp [hj]
  · have h4 : (2 : Nat) ^ 2 ≤ 2 ^ j := Nat.pow_le_pow_right (by norm_num) (Nat.le_of_not_lt hj)
    have hbj : Nat.testBit b j = false :=
      Nat.testBit_lt_two_pow (lt_of_lt_of_le hb (by simpa using h4))
    simp [hj, hbj]

theorem generate_stream_id_eq (n : Nat) (c : Bool) (t : StreamType) :
    generate_stream_id n c t = 4 * (((n + 1) % 2 ^ 64) % 2 ^ 62) + roleBits c t := by
  have hshift : (((n + 1) % 2 ^ 64) <<< 2) % 2 ^ 64
      = 4 * (((n + 1) % 2 ^ 64) % 2 ^ 62) := by
    rw [Nat.shiftLeft_eq]
    have h1 : (2 : Nat) ^ 64 = 2 ^ 62 * 2 ^ 2 := by norm_num
    rw [h1, Nat.mul_mod_mul_right]
    ring
  have h12 : (1 : Nat) ||| 2 = 3 := rfl
  cases c <;> cases t
  · show ((((n + 1) % 2 ^ 64) <<< 2) % 2 ^ 64) ||| 1 = _
    rw [hshift, four_mul_lor _ 1 (by norm_num)]
    simp [roleBits]
  · show (((((n + 1) % 2 ^ 64) <<< 2) % 2 ^ 64) ||| 1) ||| 2 = _
    rw [hshift, Nat.lor_assoc, h12, four_mul_lor _ 3 (by norm_num)]
    simp [roleBits]
  · show (((n + 1) % 2 ^ 64) <<< 2) % 2 ^ 64 = _
    rw [hshift]
    simp [roleBits]
  · show ((((n + 1) % 2 ^ 64) <<< 2) % 2 ^ 64) ||| 2 = _
    rw [hshift, four_mul_lor _ 2 (by norm_num)]
    simp [roleBits]

/-- C1 counterexample: the claim says ids 0-3 are never produced for any
u64 counter, but at counter 2 ^ 62 - 1 the u64 left shift discards the
carry and the server/unidirectional combination yields the reserved
id 3. -/
theorem generate_stream_id_produces_reserved_id :
    (2 ^ 62 - 1 : Nat) < 2 ^ 64 ∧
    generate_stream_id (2 ^ 62 - 1) false StreamType.Unidirectional = 3 := by
  constructor <;> decide

/-- C1 (amended): for every u64 counter n, no two distinct
(role, directionality) combinations produce the same stream id; and the
reserved ids 0-3 are never produced provided the shifted counter does
not wrap, i.e. n + 1 is not a multiple of 2 ^ 62. -/
theorem generate_stream_id_cross_injective_and_reserved :
    (∀ (n : Nat) (c1 c2 : Bool) (t1 t2 : StreamType), n < 2 ^ 64 →
      (c1, t1) ≠ (c2, t2) →
      generate_stream_id n c1 t1 ≠ generate_stream_id n c2 t2) ∧
    (∀ (n : Nat) (c : Bool) (t : StreamType), n < 2 ^ 64 → (n + 1) % 2 ^ 62 ≠ 0 →
      4 ≤ generate_stream_id n c t) := by
  constructor
  · intro n c1 c2 t1 t2 hn hne heq
    rw [generate_stream_id_eq, generate_stream_id_eq] at heq
    have hb1 := roleBits_lt_four c1 t1
    have hb2 := roleBits_lt_four c2 t2
    have hb : roleBits c1 t1 = roleBits c2 t2 := by omega
    apply hne
    cases c1 <;> cases c2 <;> cases t1 <;> cases t2 <;> simp_all [roleBits]
  · intro n c t hn h2
    rw [generate_stream_id_eq]
    have := roleBits_lt_four c t
    omega

/-- C1 witness: at counter 0 the client/bidirectional and
server/bidirectional ids differ, and the id is at least 4. -/
theorem generate_stream_id_cross_injective_and_reserved_witness :
    ((0 : Nat) < 2 ^ 64 ∧ (0 + 1) % 2 ^ 62 ≠ 0) ∧
    generate_stream_id 0 true StreamType.Bidirectional
      ≠ generate_stream_id 0 false StreamType.Bidirectional ∧
    4 ≤ generate_stream_id 0 true StreamType.Bidirectional :=
  ⟨⟨by decide, by decide⟩,
    generate_stream_id_cross_injective_and_reserved.1 0 true false
      StreamType.Bidirectional StreamType.Bidirectional (by decide) (by decide),
    generate_stream_id_cross_injective_and_reserved.2 0 true
      StreamType.Bidirectional (by decide) (by decide)⟩

/-- C2: generate_stream_id computes exactly the spec formula (increment,
shift left by two, set bit 0 for the server, set bit 1 for
unidirectional), and yields the twelve concrete vectors listed in the
spec. -/
theorem generate_stream_id_matches_spec_formula_and_vectors :
    (∀ (n : Nat) (c : Bool) (t : StreamType),
      generate_stream_id n c t = generateStreamId_spec n c t) ∧
    generate_stream_id 0 true StreamType.Bidirectional = 4 ∧
    generate_stream_id 1 true StreamType.Bidirectional = 8 ∧
    generate_stream_id 2 true StreamType.Bidirectional = 12 ∧
    generate_stream_id 0 true StreamType.Unidirectional = 6 ∧
    generate_stream_id 1 true StreamType.Unidirectional = 10 ∧
    generate_stream_id 2 true StreamType.Unidirectional = 14 ∧
    generate_stream_id 0 false StreamType.Bidirectional = 5 ∧
    generate_stream_id 1 false StreamType.Bidirectional = 9 ∧
    generate_stream_id 2 false StreamType.Bidirectional = 13 ∧
    generate_stream_id 0 false StreamType.Unidirectional = 7 ∧
    generate_stream_id 1 false StreamType.Unidirectional = 11 ∧
    generate_stream_id 2 false StreamType.Unidirectional = 15 := by
  refine ⟨?_, by decide, by decide, by decide, by decide, by decide, by decide,
    by decide, by decide, by decide, by decide, by decide, by decide⟩
  intro n c t
  cases c <;> cases t <;> rfl

/-- C3 counterexample: the ids are not strictly increasing over the whole
u64 counter range: at counter 2 ^ 62 - 1 the shift wraps to 0, below the
id 4 produced at counter 0. -/
theorem generate_stream_id_not_monotone_at_wrap :
    (0 : Nat) < 2 ^ 62 - 1 ∧ (2 ^ 62 - 1 : Nat) < 2 ^ 64 ∧
    ¬ generate_stream_id 0 true StreamType.Bidirectional
        < generate_stream_id (2 ^ 62 - 1) true StreamType.Bidirectional := by
  exact ⟨by decide, by decide, by decide⟩

/-- C3 (amended): for a fixed (role, directionality) combination the
stream ids are strictly increasing in the counter as long as the counter
stays below the wrap point: m < n and n + 1 < 2 ^ 62 imply
generate_stream_id m < generate_stream_id n. -/
theorem generate_stream_id_strict_mono_below_wrap :
    ∀ (m n : Nat) (c : Bool) (t : StreamType), m < n → n + 1 < 2 ^ 62 →
      generate_stream_id m c t < generate_stream_id n c t := by
  intro m n c t h1 h2
  rw [generate_stream_id_eq, generate_stream_id_eq]
  omega

/-- C3 witness: counters 0 and 1 for client/bidirectional give 4 < 8. -/
theorem generate_stream_id_strict_mono_below_wrap_witness :
    ((0 : Nat) < 1 ∧ (1 : Nat) + 1 < 2 ^ 62) ∧
    generate_stream_id 0 true StreamType.Bidirectional
      < generate_stream_id 1 true StreamType.Bidirectional :=
  ⟨⟨by decide, by decide⟩,
    generate_stream_id_strict_mono_below_wrap 0 1 true StreamType.Bidirectional
      (by decide) (by decide)⟩

/-- C4: Connection::error returns none iff both raw codes are zero;
otherwise it returns a classifier seeded with the local code when that
code is non-zero and with the remote code otherwise; the classifier
yields TLSHandshakeError exactly for the recognized TLS handshake
failure code and Unknown for every other non-zero code; and any returned
classifier yields an equal result on every invocation. -/
theorem connection_error_classification :
    ∀ e : ErrorCodes,
      (Connection.error e = none ↔ (e.local_error = 0 ∧ e.remote_error = 0)) ∧
      (e.local_error ≠ 0 →
        Connection.error e = some (fun _ => classify_error e.local_error)) ∧
      (e.local_error = 0 → e.remote_error ≠ 0 →
        Connection.error e = some (fun _ => classify_error e.remote_error)) ∧
      (∀ code : Nat, code ≠ 0 →
        (classify_error code = ErrorKind.TLSHandshakeError ↔
          code = PICOQUIC_TLS_HANDSHAKE_FAILED)) ∧
      (∀ f, Connection.error e = some f → ∀ u v : Unit, f u = f v) := by
  intro e
  refine ⟨?_, ?_, ?_, ?_, ?_⟩
  · by_cases hl : e.local_error = 0 <;> by_cases hr : e.remote_error = 0 <;>
      simp [Connection.error, hl, hr]
  · intro hl
    simp [Connection.error, hl]
  · intro hl hr
    simp [Connection.error, hl, hr]
  · intro code hc
    constructor
    · intro h
      by_cases hq : code = PICOQUIC_TLS_HANDSHAKE_FAILED
      · exact hq
      · simp [classify_error, hq] at h
    · intro h
      simp [classify_error, h]
  · intro f hf u v
    cases u
    cases v
    rfl

/-- C4 witness: with local code 0x201 and remote code 0 the classifier is
seeded with the local code and yields TLSHandshakeError. -/
theorem connection_error_classification_witness :
    (ErrorCodes.mk 513 0).local_error ≠ 0 ∧
    Connection.error (ErrorCodes.mk 513 0) = some (fun _ => classify_error 513) ∧
    ((513 : Nat) ≠ 0 ∧
      (classify_error 513 = ErrorKind.TLSHandshakeError ↔
        513 = PICOQUIC_TLS_HANDSHAKE_FAILED)) :=
  ⟨by decide,
    (connection_error_classification (ErrorCodes.mk 513 0)).2.1 (by decide),
    by decide,
    (connection_error_classification (ErrorCodes.mk 513 0)).2.2.2.1 513 (by decide)⟩

/-- C5: Connection::new hits the assertion (panic) for every peer address
whose IP part is unspecified, whatever the port and whatever the engine
would answer; for any address that is not unspecified the panic branch
is unreachable. -/
theorem connection_new_panics_iff_unspecified :
    ∀ (q : QuicCtx) (addr : SocketAddr) (t : Nat),
      (addr.ip.is_unspecified = true →
        Connection.new q addr t = NewResult.panicked ∧
        ∀ q2 : QuicCtx, Connection.new q addr t = Connection.new q2 addr t) ∧
      (addr.ip.is_unspecified = false →
        Connection.new q addr t ≠ NewResult.panicked) := by
  intro q addr t
  constructor
  · intro h
    constructor
    · simp [Connection.new, h]
    · intro q2
      simp [Connection.new, h]
  · intro h
    cases hc : q.create_client_cnx addr t <;> simp [Connection.new, h, hc]

/-- C5 witness: the wildcard v4 address 0.0.0.0:12345 panics; the
address 127.0.0.1:443 does not. -/
theorem connection_new_panics_iff_unspecified_witness :
    (SocketAddr.mk (IpAddr.v4 0 0 0 0) 12345).ip.is_unspecified = true ∧
    Connection.new (QuicCtx.mk fun _ _ => none) (SocketAddr.mk (IpAddr.v4 0 0 0 0) 12345) 0
      = NewResult.panicked ∧
    (SocketAddr.mk (IpAddr.v4 127 0 0 1) 443).ip.is_unspecified = false ∧
    Connection.new (QuicCtx.mk fun _ _ => none) (SocketAddr.mk (IpAddr.v4 127 0 0 1) 443) 0
      ≠ NewResult.panicked :=
  ⟨by decide,
    ((connection_new_panics_iff_unspecified (QuicCtx.mk fun _ _ => none)
      (SocketAddr.mk (IpAddr.v4 0 0 0 0) 12345) 0).1 (by decide)).1,
    by decide,
    (connection_new_panics_iff_unspecified (QuicCtx.mk fun _ _ => none)
      (SocketAddr.mk (IpAddr.v4 127 0 0 1) 443) 0).2 (by decide)⟩

/-- C6: for a non-unspecified peer address, Connection::new returns the
Unknown error exactly when the engine create call yields a null
connection object, and otherwise returns ok wrapping precisely the
engine-returned object. -/
theorem connection_new_engine_result :
    ∀ (q : QuicCtx) (addr : SocketAddr) (t : Nat),
      addr.ip.is_unspecified = false →
      (Connection.new q addr t = NewResult.err ErrorKind.Unknown ↔
        q.create_client_cnx addr t = none) ∧
      (∀ p : Nat, q.create_client_cnx addr t = some p →
        Connection.new q addr t = NewResult.ok { cnx := p }) := by
  intro q addr t h
  constructor
  · cases hc : q.create_client_cnx addr t <;> simp [Connection.new, h, hc]
  · intro p hp
    simp [Connection.new, h, hp]

/-- C6 witness: with 127.0.0.1:443, an engine answering null gives the
Unknown error and an engine answering object 42 gives a handle on 42. -/
theorem connection_new_engine_result_witness :
    (SocketAddr.mk (IpAddr.v4 127 0 0 1) 443).ip.is_unspecified = false ∧
    Connection.new (QuicCtx.mk fun _ _ => none) (SocketAddr.mk (IpAddr.v4 127 0 0 1) 443) 7
      = NewResult.err ErrorKind.Unknown ∧
    Connection.new (QuicCtx.mk fun _ _ => some 42) (SocketAddr.mk (IpAddr.v4 127 0 0 1) 443) 7
      = NewResult.ok (Connection.mk 42) :=
  ⟨by decide,
    ((connection_new_engine_result (QuicCtx.mk fun _ _ => none)
      (SocketAddr.mk (IpAddr.v4 127 0 0 1) 443) 7 (by decide)).1).mpr rfl,
    (connection_new_engine_result (QuicCtx.mk fun _ _ => some 42)
      (SocketAddr.mk (IpAddr.v4 127 0 0 1) 443) 7 (by decide)).2 42 rfl⟩

/-- C7: create_and_prepare_packet returns ok (some size) when the
prepared packet contains data, ok none (not an error) when the engine
determined there is nothing to send, and an error exactly when packet
creation or the engine preparation call itself fails. -/
theorem create_and_prepare_packet_contract :
    ∀ ops : PacketOps,
      (∀ size : Nat, ops.create = Except.ok () → ops.prepare = Except.ok size →
        create_and_prepare_packet ops
          = if ops.contains_data then Except.ok (some size) else Except.ok none) ∧
      (∀ err : ErrorKind,
        create_and_prepare_packet ops = Except.error err ↔
          (ops.create = Except.error err ∨
            (ops.create = Except.ok () ∧ ops.prepare = Except.error err))) := by
  intro ops
  constructor
  · intro size hc hp
    simp [create_and_prepare_packet, hc, hp]
  · intro err
    cases hc : ops.create with
    | error e => simp [create_and_prepare_packet, hc]
    | ok u =>
      cases u
      cases hp : ops.prepare with
      | error e2 => simp [create_and_prepare_packet, hc, hp]
      | ok s =>
        by_cases hd : ops.contains_data <;>
          simp [create_and_prepare_packet, hc, hp, hd]

/-- C7 witness: with successful creation, a prepared size of 100 and a
buffer holding data, the call returns ok (some 100); with an empty
buffer it returns ok none. -/
theorem create_and_prepare_packet_contract_witness :
    (PacketOps.mk (Except.ok ()) (Except.ok 100) true).create = Except.ok () ∧
    (PacketOps.mk (Except.ok ()) (Except.ok 100) true).prepare = Except.ok 100 ∧
    create_and_prepare_packet (PacketOps.mk (Except.ok ()) (Except.ok 100) true)
      = Except.ok (some 100) ∧
    create_and_prepare_packet (PacketOps.mk (Except.ok ()) (Except.ok 100) false)
      = Except.ok none :=
  ⟨rfl, rfl,
    (create_and_prepare_packet_contract
      (PacketOps.mk (Except.ok ()) (Except.ok 100) true)).1 100 rfl rfl,
    (create_and_prepare_packet_contract
      (PacketOps.mk (Except.ok ()) (Except.ok 100) false)).1 100 rfl rfl⟩

/-- C8: on any sampled state code, is_ready holds exactly for the client
ready and server ready codes, is_disconnected holds exactly for the
disconnected code, and the two predicates are never simultaneously
true. -/
theorem is_ready_is_disconnected_exclusive :
    ∀ state : Nat,
      (Connection.is_ready state = true ↔
        (state = picoquic_state_client_ready ∨ state = picoquic_state_server_ready)) ∧
      (Connection.is_disconnected state = true ↔ state = picoquic_state_disconnected) ∧
      (Connection.is_ready state && Connection.is_disconnected state) = false := by
  intro s
  refine ⟨?_, ?_, ?_⟩
  · simp [Connection.is_ready]
  · simp [Connection.is_disconnected]
  · by_cases h : s = picoquic_state_disconnected
    · subst h
      decide
    · have hd : Connection.is_disconnected s = false := by
        simp [Connection.is_disconnected]
        exact h
      rw [hd, Bool.and_false]

/-- Helper for C9: stepping from an element of a duplicate-free chain
via nextInChain lands on the following element. -/
theorem nextInChain_append (pre rest : List Nat) (p : Nat) (hp : p ∉ pre) :
    nextInChain (pre ++ p :: rest) p = rest.head? := by
  induction pre with
  | nil => simp [nextInChain]
  | cons x xs ih =>
    have hx : ¬ x = p := by
      intro h
      exact hp (by simp [h])
    have hxs : p ∉ xs := fun h => hp (List.mem_cons_of_mem _ h)
    simp [nextInChain, hx, ih hxs]

/-- Helper for C9: the walk loop started on the head of any suffix of a
duplicate-free chain reproduces that suffix, given fuel at least its
length. -/
theorem connectionWalk_suffix (e : QuicEngineList) :
    ∀ (suf pre : List Nat), e.chain = pre ++ suf → e.chain.Nodup →
      ∀ fuel : Nat, suf.length ≤ fuel →
      connectionWalk e fuel suf.head? = suf := by
  intro suf
  induction suf with
  | nil =>
    intro pre hch hnd fuel hf
    cases fuel <;> simp [connectionWalk]
  | cons p rest ih =>
    intro pre hch hnd fuel hf
    cases fuel with
    | zero => simp at hf
    | succ f =>
      show connectionWalk e (f + 1) (some p) = p :: rest
      have hp : p ∉ pre := by
        rw [hch, List.nodup_append] at hnd
        intro hmem
        exact hnd.2.2 hmem (List.mem_cons_self p rest)
      have hnext : picoquic_get_next_cnx e p = rest.head? := by
        rw [picoquic_get_next_cnx, hch]
        exact nextInChain_append pre rest p hp
      have hrest := ih (pre ++ [p]) (by rw [hch]; simp) hnd f
        (by exact Nat.le_of_succ_le_succ hf)
      simp [connectionWalk, hnext, hrest]

/-- C9: for an engine chain of distinct connection pointers, the
iterator construction terminates within chain-length steps having
captured every pointer once in walk order, and yields exactly the
corresponding handles in that order from its owned sequence. -/
theorem connection_iter_captures_chain :
    ∀ (e : QuicEngineList) (fuel : Nat), e.chain.Nodup → e.chain.length ≤ fuel →
      ConnectionIter.new e fuel = e.chain.map (fun p => { cnx := p }) := by
  intro e fuel hnd hf
  unfold ConnectionIter.new
  rw [show picoquic_get_first_cnx e = e.chain.head? from rfl,
    connectionWalk_suffix e e.chain [] rfl hnd fuel hf]

/-- C9 witness: the chain 5, 3, 9 with fuel 3 is captured as the three
handles in order. -/
theorem connection_iter_captures_chain_witness :
    (QuicEngineList.mk [5, 3, 9]).chain.Nodup ∧
    (QuicEngineList.mk [5, 3, 9]).chain.length ≤ 3 ∧
    ConnectionIter.new (QuicEngineList.mk [5, 3, 9]) 3
      = [Connection.mk 5, Connection.mk 3, Connection.mk 9] :=
  ⟨by decide, by decide,
    connection_iter_captures_chain (QuicEngineList.mk [5, 3, 9]) 3
      (by decide) (by decide)⟩

/-- C10: every invocation of close passes application error code exactly
0 to the engine close operation on the wrapped connection object; the
close signature takes no error-code argument, so no non-zero code can
be requested through it. -/
theorem close_uses_error_code_zero :
    ∀ c : Connection,
      (Connection.close c).error_code = 0 ∧ (Connection.close c).cnx = c.cnx := by
  intro c
  exact ⟨rfl, rfl⟩

end Picoquic
